import Mathlib

/-!
Verification of `src/mint_token.py` (repository `mdlog/alethea-contract`).

The script issues two HTTP POST requests with GraphQL bodies and prints
human-readable lines.  We embed it shallowly: JSON values are an inductive
type, `requests.post(url, json=...)` serialization is modelled by `dumps`
(Python `json.dumps` with its default separators and `ensure_ascii=True`),
Python string formatting of parsed values by `pyFormat` (`str`/`repr`), and
the run itself by `mint_tokens`, a pure function from the two network
outcomes to a trace of issued posts, printed lines and an optional uncaught
exception.
-/

/-- Quote character `"` (written via its code point to keep literals simple). -/
def dquoteC : Char := Char.ofNat 34

/-- Quote character `'`. -/
def squoteC : Char := Char.ofNat 39

/-- Backslash character. -/
def bslashC : Char := Char.ofNat 92

/-- Lower-case hexadecimal digit, as Python prints in `\uXXXX` escapes. -/
def hexDigit (n : Nat) : Char :=
  if n < 10 then Char.ofNat (48 + n) else Char.ofNat (87 + n)

/-- Four hex digits of a code point below `0x10000`. -/
def hex4 (n : Nat) : List Char :=
  [hexDigit (n / 4096 % 16), hexDigit (n / 256 % 16), hexDigit (n / 16 % 16), hexDigit (n % 16)]

/-- Escape of one character performed by Python `json.dumps` with the default
`ensure_ascii=True`: quote and backslash get a backslash, the usual control
shorthands apply, every other character outside `0x20`–`0x7e` becomes
`\uXXXX` (a surrogate pair above `0xffff`). -/
def escJsonChar (c : Char) : List Char :=
  if c = dquoteC then [bslashC, dquoteC]
  else if c = bslashC then [bslashC, bslashC]
  else if c = Char.ofNat 10 then [bslashC, Char.ofNat 110]
  else if c = Char.ofNat 13 then [bslashC, Char.ofNat 114]
  else if c = Char.ofNat 9 then [bslashC, Char.ofNat 116]
  else if c = Char.ofNat 8 then [bslashC, Char.ofNat 98]
  else if c = Char.ofNat 12 then [bslashC, Char.ofNat 102]
  else if 32 ≤ c.toNat ∧ c.toNat ≤ 126 then [c]
  else if c.toNat < 65536 then bslashC :: Char.ofNat 117 :: hex4 c.toNat
  else
    (bslashC :: Char.ofNat 117 :: hex4 (55296 + (c.toNat - 65536) / 1024)) ++
      (bslashC :: Char.ofNat 117 :: hex4 (56320 + (c.toNat - 65536) % 1024))

/-- JSON escape of a character sequence. -/
def escJson : List Char → List Char
  | [] => []
  | c :: rest => escJsonChar c ++ escJson rest

mutual

/-- Python values returned by `response.json()`: JSON objects, arrays,
strings, integers, booleans and null (non-integer numbers do not occur in
this development). -/
inductive PyJson : Type where
  | null : PyJson
  | bool : Bool → PyJson
  | int : Int → PyJson
  | str : String → PyJson
  | arr : PyList → PyJson
  | obj : PyObj → PyJson

/-- A JSON array, as its own inductive so that recursion stays structural. -/
inductive PyList : Type where
  | nil : PyList
  | cons : PyJson → PyList → PyList

/-- A JSON object: an ordered association list of string keys and values. -/
inductive PyObj : Type where
  | nil : PyObj
  | cons : String → PyJson → PyObj → PyObj

end

mutual

/-- `json.dumps(v)` with default arguments, as `requests.post(url, json=v)`
serializes the request body: item separator `", "`, key separator `": "`. -/
def dumps : PyJson → String
  | PyJson.null => "null"
  | PyJson.bool true => "true"
  | PyJson.bool false => "false"
  | PyJson.int n => toString n
  | PyJson.str s => "\"" ++ String.mk (escJson s.data) ++ "\""
  | PyJson.arr xs => "[" ++ dumpsArr xs ++ "]"
  | PyJson.obj kvs => "\x7b" ++ dumpsObj kvs ++ "\x7d"

/-- Array items of `json.dumps`, joined by `", "`. -/
def dumpsArr : PyList → String
  | PyList.nil => ""
  | PyList.cons v PyList.nil => dumps v
  | PyList.cons v tl => dumps v ++ ", " ++ dumpsArr tl

/-- Object items of `json.dumps`, joined by `", "`, keys escaped. -/
def dumpsObj : PyObj → String
  | PyObj.nil => ""
  | PyObj.cons k v PyObj.nil => "\"" ++ String.mk (escJson k.data) ++ "\": " ++ dumps v
  | PyObj.cons k v tl =>
      "\"" ++ String.mk (escJson k.data) ++ "\": " ++ dumps v ++ ", " ++ dumpsObj tl

end

/-- Indentation string of `json.dumps(..., indent=2)` at nesting level `lvl`. -/
def pad (lvl : Nat) : String := String.mk (List.replicate (2 * lvl) (Char.ofNat 32))

mutual

/-- `json.dumps(v, indent=2)`, as printed on the token-info success path:
items separated by `",\n"`, each on its own indented line, key separator
`": "`, empty containers rendered inline. -/
def dumpsInd : Nat → PyJson → String
  | _, PyJson.null => "null"
  | _, PyJson.bool true => "true"
  | _, PyJson.bool false => "false"
  | _, PyJson.int n => toString n
  | _, PyJson.str s => "\"" ++ String.mk (escJson s.data) ++ "\""
  | _, PyJson.arr PyList.nil => "[]"
  | lvl, PyJson.arr xs => "[\n" ++ dumpsIndArr (lvl + 1) xs ++ "\n" ++ pad lvl ++ "]"
  | _, PyJson.obj PyObj.nil => "\x7b\x7d"
  | lvl, PyJson.obj kvs => "\x7b\n" ++ dumpsIndObj (lvl + 1) kvs ++ "\n" ++ pad lvl ++ "\x7d"

/-- Array items of `json.dumps(..., indent=2)`. -/
def dumpsIndArr : Nat → PyList → String
  | _, PyList.nil => ""
  | lvl, PyList.cons v PyList.nil => pad lvl ++ dumpsInd lvl v
  | lvl, PyList.cons v tl => pad lvl ++ dumpsInd lvl v ++ ",\n" ++ dumpsIndArr lvl tl

/-- Object items of `json.dumps(..., indent=2)`. -/
def dumpsIndObj : Nat → PyObj → String
  | _, PyObj.nil => ""
  | lvl, PyObj.cons k v PyObj.nil =>
      pad lvl ++ "\"" ++ String.mk (escJson k.data) ++ "\": " ++ dumpsInd lvl v
  | lvl, PyObj.cons k v tl =>
      pad lvl ++ "\"" ++ String.mk (escJson k.data) ++ "\": " ++ dumpsInd lvl v ++ ",\n" ++
        dumpsIndObj lvl tl

end

/-- One character of Python `repr` of a string delimited by quote `q`:
backslash and the delimiter get a backslash, newline/return/tab their
shorthands, other control characters below `0x20` and `0x7f` become `\xHH`. -/
def escPyChar (q : Char) (c : Char) : List Char :=
  if c = bslashC then [bslashC, bslashC]
  else if c = q then [bslashC, q]
  else if c = Char.ofNat 10 then [bslashC, Char.ofNat 110]
  else if c = Char.ofNat 13 then [bslashC, Char.ofNat 114]
  else if c = Char.ofNat 9 then [bslashC, Char.ofNat 116]
  else if c.toNat < 32 ∨ c.toNat = 127 then
    [bslashC, Char.ofNat 120, hexDigit (c.toNat / 16 % 16), hexDigit (c.toNat % 16)]
  else [c]

/-- Python `repr` escape of a character sequence with delimiter `q`. -/
def escPy (q : Char) : List Char → List Char
  | [] => []
  | c :: rest => escPyChar q c ++ escPy q rest

/-- Python `repr` of a string: single-quoted, except double-quoted when the
string holds a single quote and no double quote. -/
def pyReprStr (s : String) : String :=
  let q := if s.data.contains squoteC && !(s.data.contains dquoteC) then dquoteC else squoteC
  String.singleton q ++ String.mk (escPy q s.data) ++ String.singleton q

mutual

/-- Python `repr` of a parsed JSON value (what `str` of a dict shows for its
elements): dicts as `\x7b'k': v\x7d`, lists as `[v, w]`, `True`/`False`/`None`. -/
def pyRepr : PyJson → String
  | PyJson.null => "None"
  | PyJson.bool true => "True"
  | PyJson.bool false => "False"
  | PyJson.int n => toString n
  | PyJson.str s => pyReprStr s
  | PyJson.arr xs => "[" ++ pyReprArr xs ++ "]"
  | PyJson.obj kvs => "\x7b" ++ pyReprObj kvs ++ "\x7d"

/-- List items of Python `repr`, joined by `", "`. -/
def pyReprArr : PyList → String
  | PyList.nil => ""
  | PyList.cons v PyList.nil => pyRepr v
  | PyList.cons v tl => pyRepr v ++ ", " ++ pyReprArr tl

/-- Dict items of Python `repr`, joined by `", "`. -/
def pyReprObj : PyObj → String
  | PyObj.nil => ""
  | PyObj.cons k v PyObj.nil => pyReprStr k ++ ": " ++ pyRepr v
  | PyObj.cons k v tl => pyReprStr k ++ ": " ++ pyRepr v ++ ", " ++ pyReprObj tl

end

/-- Python `str` of a parsed JSON value, as an f-string interpolates it
(line 36 of the source): a top-level string is shown bare, everything else
via `repr` (for which `str` and `repr` agree). -/
def pyFormat : PyJson → String
  | PyJson.str s => s
  | v => pyRepr v

/-- Configured service URL (source line 11). -/
def LINERA_SERVICE : String := "http://localhost:8082"

/-- Fixed chain identifier (source line 12). -/
def CHAIN_ID : String := "3482d6e583c1ea93461a9df51dda460cb1d855fb30d8c9c5719145b07692147b"

/-- Fixed application identifier (source line 13). -/
def APP_ID : String := "fee1da3380b869246b647b9deedaed0403043c4474b1b347cf2f8297da674126"

/-- Unused owner constant (source line 14). -/
def FAUCET_OWNER : String := "a14d36f87a4d786817dfbbc64f5740e8fc8b6186d0f131ea62a442127e7364ae"

/-- The request URL built at source line 24:
`f"\x7bLINERA_SERVICE\x7d/chains/\x7bCHAIN_ID\x7d/applications/\x7bAPP_ID\x7d"`. -/
def requestUrl : String :=
  LINERA_SERVICE ++ "/chains/" ++ CHAIN_ID ++ "/applications/" ++ APP_ID

/-- The balance query dict built at source lines 27–29: the f-string splices
`to_address` into the GraphQL text with no escaping of any kind. -/
def balanceQuery (to_address : String) : PyJson :=
  PyJson.obj (PyObj.cons ("query")
    (PyJson.str ("\x7b balance(owner: \"" ++ to_address ++ "\") \x7d")) PyObj.nil)

/-- The token-info query dict built at source lines 42–44 (a fixed literal,
with no trailing space inside the GraphQL text). -/
def infoQuery : PyJson :=
  PyJson.obj (PyObj.cons ("query")
    (PyJson.str ("\x7b tokenInfo \x7b name symbol decimals totalSupply \x7d \x7d")) PyObj.nil)

/-- The six advisory lines printed unconditionally at source lines 55–60. -/
def advisoryLines : List String :=
  ["\n⚠️  Note: Direct minting via GraphQL is not supported.",
   "The ALETHEA contract requires operation execution through Linera blocks.",
   "\nTo mint tokens, you need to:",
   "1. Use the Linera CLI to create a block with Mint operation",
   "2. Or use the dashboard UI which handles operation execution",
   "3. Or implement a proper RPC client that can sign and submit blocks"]

/-- An HTTP response as the script observes it: `status_code`, the raw body
`text`, and `jsonOf`, which models what `response.json()` yields — `some v`
when `text` parses as the JSON value `v`, `none` when parsing fails and the
call raises `JSONDecodeError`. -/
structure HttpResp : Type where
  status_code : Nat
  text : String
  jsonOf : Option PyJson

/-- Outcome of one `requests.post` call: either the HTTP response, or a
transport-level exception raised by the library (connection refused,
timeout, DNS failure), carrying a message. -/
inductive ReqOutcome : Type where
  | exn : String → ReqOutcome
  | resp : HttpResp → ReqOutcome

/-- An exception escaping `mint_tokens` uncaught: a transport error from
`requests.post`, or the `JSONDecodeError` from `response.json()`. -/
inductive PyError : Type where
  | transportError : String → PyError
  | jsonDecodeError : PyError

/-- Observable trace of one run: the issued posts in order (URL and JSON
body as handed to `requests.post(url, json=...)`), the lines printed (one
entry per `print` call, embedded newlines kept), and the uncaught exception
if the run died before returning. -/
structure RunTrace : Type where
  posts : List (String × PyJson)
  output : List String
  exc : Option PyError

/-- Shallow embedding of `mint_tokens` (source lines 16–60) as a function of
its two arguments and the outcomes of the two `requests.post` calls.  The
source is straight-line: print the checking line, post the balance query
(lines 31–32); on status 200 parse and print the dict, otherwise print the
status and the raw text (lines 34–39); print the token-info line and post
the fixed info query (lines 46–47); on status 200 parse and pretty-print,
otherwise print only the status (lines 49–53); finally print the six
advisory lines (lines 55–60).  A transport exception or a failed
`response.json()` aborts the run at that point with the exception recorded
in `exc`. -/
def mint_tokens (to_address : String) (amount : String) (net1 net2 : ReqOutcome) : RunTrace :=
  let url := requestUrl
  let balance_query := balanceQuery to_address
  let out0 := ["🔍 Checking current balance for " ++ to_address ++ "..."]
  let phase2 : List String → RunTrace := fun outB =>
    let out1 := outB ++ ["\n🪙 Checking token info..."]
    let posts := [(url, balance_query), (url, infoQuery)]
    match net2 with
    | ReqOutcome.exn m => ⟨posts, out1, some (PyError.transportError m)⟩
    | ReqOutcome.resp r2 =>
      if r2.status_code = 200 then
        match r2.jsonOf with
        | none => ⟨posts, out1, some PyError.jsonDecodeError⟩
        | some j =>
            ⟨posts, out1 ++ ["✅ Token info: " ++ dumpsInd 0 j] ++ advisoryLines, none⟩
      else
        ⟨posts, out1 ++ ["⚠️  Could not get token info: " ++ toString r2.status_code] ++
          advisoryLines, none⟩
  match net1 with
  | ReqOutcome.exn m => ⟨[(url, balance_query)], out0, some (PyError.transportError m)⟩
  | ReqOutcome.resp r1 =>
    if r1.status_code = 200 then
      match r1.jsonOf with
      | none => ⟨[(url, balance_query)], out0, some PyError.jsonDecodeError⟩
      | some j => phase2 (out0 ++ ["✅ Current balance: " ++ pyFormat j])
    else
      phase2 (out0 ++ ["⚠️  Could not check balance: " ++ toString r1.status_code,
        "Response: " ++ r1.text])

/-- Default destination address (source line 63). -/
def defaultToAddress : String :=
  "f1008485b277add6c3b54207014df45fd8fb48e8146689ba554128a32a6f1ce8"

/-- Default amount (source line 64). -/
def defaultAmount : String := "1000."

/-- The banner printed by `__main__` (source lines 66–73); `"=" * 50` is a
run of fifty equals signs and the bare `print()` an empty line. -/
def headerLines (to_address : String) (amount : String) : List String :=
  ["🚀 ALETHEA Token Mint Script",
   String.mk (List.replicate 50 (Char.ofNat 61)),
   "To Address: " ++ to_address,
   "Amount: " ++ amount,
   "Chain ID: " ++ CHAIN_ID,
   "App ID: " ++ APP_ID,
   String.mk (List.replicate 50 (Char.ofNat 61)),
   ""]

/-- Shallow embedding of the `__main__` block (source lines 62–75): `args`
models the positional command-line arguments `sys.argv[1:]`; missing
positions fall back to the defaults, the banner is printed, then
`mint_tokens` runs. -/
def mainRun (args : List String) (net1 net2 : ReqOutcome) : RunTrace :=
  let to_address := match args.head? with | some a => a | none => defaultToAddress
  let amount := match args[1]? with | some a => a | none => defaultAmount
  let t := mint_tokens to_address amount net1 net2
  ⟨t.posts, headerLines to_address amount ++ t.output, t.exc⟩

/-- Is `needle` a prefix of `hay`? (plain character-list comparison). -/
def leadsWith : List Char → List Char → Bool
  | [], _ => true
  | _ :: _, [] => false
  | a :: as, b :: bs => a == b && leadsWith as bs

/-- Does `needle` occur contiguously inside `hay`? -/
def hasSub (needle : List Char) : List Char → Bool
  | [] => leadsWith needle []
  | c :: t => leadsWith needle (c :: t) || hasSub needle t

/-- Substring test on strings, used to state "the text appears in the
output". -/
def strHasSub (needle hay : String) : Bool := hasSub needle.data hay.data

/-- All printed output of a run as one string, each `print` ending the line. -/
def fullOutput (t : RunTrace) : String :=
  String.join (t.output.map (fun l => l ++ "\n"))

/-- From the spec's words (section 8, property 1): the balance request body
the spec claims byte-for-byte, with the address `A` spliced in raw —
`\x7b"query": "\x7b balance(owner: \"A\") \x7d"\x7d`.  Compared against what the
code actually sends, `dumps (balanceQuery A)`. -/
def balanceBodySpecBytes (A : String) : String :=
  "\x7b\"query\": \"\x7b balance(owner: \\\"" ++ A ++ "\\\") \x7d\"\x7d"

/-- From the spec's words (section 6, request body 2): the claimed fixed
token-info body, including the trailing space before the closing quote.
Compared against what the code actually sends, `dumps infoQuery`. -/
def infoBodySpecText : String :=
  "\x7b\"query\": \"\x7b tokenInfo \x7b name symbol decimals totalSupply \x7d \x7d \"\x7d"

/-- The lines printed by the balance-handling block (source lines 34–39)
when it completes without raising: the parsed dict on status 200, otherwise
the status code and the raw text.  The `[]` case stands for a 200 response
whose body fails to parse, where the block raises instead of printing. -/
def balanceLines (r : HttpResp) : List String :=
  if r.status_code = 200 then
    match r.jsonOf with
    | some j => ["✅ Current balance: " ++ pyFormat j]
    | none => []
  else
    ["⚠️  Could not check balance: " ++ toString r.status_code, "Response: " ++ r.text]

/-- The simulated success response of spec section 8, property 5: HTTP 200
with body `\x7b"data":\x7b"balance":"42."\x7d\x7d`; `jsonOf` is that body's JSON parse. -/
def balance42Resp : HttpResp :=
  ⟨200, "\x7b\"data\":\x7b\"balance\":\"42.\"\x7d\x7d",
   some (PyJson.obj (PyObj.cons ("data")
     (PyJson.obj (PyObj.cons ("balance") (PyJson.str ("42.")) PyObj.nil)) PyObj.nil))⟩

/-- The simulated failure response of spec section 8, property 4: HTTP 500
with body `server error` (not valid JSON, so `jsonOf` is `none`). -/
def serverErrorResp : HttpResp := ⟨500, "server error", none⟩

/-- The one-character string `'`, used to spell out Python `repr` renderings. -/
def sqS : String := String.singleton squoteC

/-! ## Helper lemmas -/

/-- Unfolding the `String.mk` wrapper. -/
theorem mk_data (l : List Char) : (String.mk l).data = l := rfl

/-- JSON escaping distributes over concatenation. -/
theorem escJson_append (l1 l2 : List Char) :
    escJson (l1 ++ l2) = escJson l1 ++ escJson l2 := by
  induction l1 with
  | nil => rfl
  | cons c t ih => simp [escJson, ih]

/-- Whatever the network does, the first issued post is the balance query
for the given address, at the fixed URL. -/
theorem mint_tokens_posts_head (toA amount : String) (n1 n2 : ReqOutcome) :
    (mint_tokens toA amount n1 n2).posts.head? = some (requestUrl, balanceQuery toA) := by
  cases n1 with
  | exn m => rfl
  | resp r1 =>
    by_cases h : r1.status_code = 200
    · cases hj : r1.jsonOf with
      | none => simp [mint_tokens, h, hj]
      | some j =>
        cases n2 with
        | exn m2 => simp [mint_tokens, h, hj]
        | resp r2 =>
          by_cases h2 : r2.status_code = 200
          · cases hj2 : r2.jsonOf <;> simp [mint_tokens, h, h2, hj, hj2]
          · simp [mint_tokens, h, h2, hj]
    · cases n2 with
      | exn m2 => simp [mint_tokens, h]
      | resp r2 =>
        by_cases h2 : r2.status_code = 200
        · cases hj2 : r2.jsonOf <;> simp [mint_tokens, h, h2, hj2]
        · simp [mint_tokens, h, h2]

/-- The balance block prints at most two lines. -/
theorem balanceLines_length_le (r : HttpResp) : (balanceLines r).length ≤ 2 := by
  unfold balanceLines
  split
  · split <;> simp
  · simp

/-! ## C1: construction of the balance request body -/

/-- C1, counterexample: for a destination address consisting of one double
quote, the serialized body of the balance post is NOT the spec's template
with the address spliced in raw — `json.dumps` escapes the quote — so the
claimed byte-for-byte equality "for all contents of A including strings
containing quotes" fails. -/
theorem C1_counterexample :
    dumps (balanceQuery (String.singleton dquoteC)) ≠
      balanceBodySpecBytes (String.singleton dquoteC) ∧
    (mint_tokens (String.singleton dquoteC) defaultAmount
        (ReqOutcome.resp serverErrorResp) (ReqOutcome.resp serverErrorResp)).posts.head? =
      some (requestUrl, balanceQuery (String.singleton dquoteC)) :=
  ⟨by decide, rfl⟩

/-- C1, amended: the first outbound post always carries the JSON object
`\x7b"query": "\x7b balance(owner: \"A\") \x7d"\x7d` with the address `A` interpolated
into the query string without any escaping; the serialized body equals the
spec's byte template exactly when `A` contains no character that JSON
escaping rewrites (no quote, backslash, control or non-ASCII character). -/
theorem C1_amended_balance_body (A amount : String) (n1 n2 : ReqOutcome) :
    (mint_tokens A amount n1 n2).posts.head? =
      some (requestUrl, PyJson.obj (PyObj.cons ("query")
        (PyJson.str ("\x7b balance(owner: \"" ++ A ++ "\") \x7d")) PyObj.nil)) ∧
    (escJson A.data = A.data → dumps (balanceQuery A) = balanceBodySpecBytes A) := by
  constructor
  · exact mint_tokens_posts_head A amount n1 n2
  · intro hA
    have e1 : escJson (("\x7b balance(owner: \"").data) = ("\x7b balance(owner: \\\"").data := by
      decide
    have e2 : escJson (("\") \x7d").data) = ("\\\") \x7d").data := by decide
    have e3 : escJson (("query").data) = ("query").data := by decide
    apply String.ext
    simp only [dumps, dumpsObj, balanceQuery, balanceBodySpecBytes, String.data_append,
      mk_data, e3]
    rw [escJson_append, escJson_append, hA, e1, e2]
    simp only [List.append_assoc]
    rfl

/-- C1, witness: the amended theorem applied at the escape-free address
`abc` and a concrete network. -/
theorem C1_witness :
    (mint_tokens ("abc") ("1000.") (ReqOutcome.resp serverErrorResp)
        (ReqOutcome.resp serverErrorResp)).posts.head? =
      some (requestUrl, PyJson.obj (PyObj.cons ("query")
        (PyJson.str ("\x7b balance(owner: \"abc\") \x7d")) PyObj.nil)) ∧
    dumps (balanceQuery ("abc")) = balanceBodySpecBytes ("abc") :=
  ⟨(C1_amended_balance_body ("abc") ("1000.") (ReqOutcome.resp serverErrorResp)
      (ReqOutcome.resp serverErrorResp)).1,
   (C1_amended_balance_body ("abc") ("1000.") (ReqOutcome.resp serverErrorResp)
      (ReqOutcome.resp serverErrorResp)).2 (by decide)⟩

/-! ## C2: what the success path prints -/

set_option maxRecDepth 4000 in
/-- C2, counterexample: with the endpoint answering the balance query with
HTTP 200 and body `\x7b"data":\x7b"balance":"42."\x7d\x7d`, the printed output does NOT
contain that JSON text: line 36 prints the parsed Python dict, whose `repr`
uses single quotes, so the response is not passed through untouched. -/
theorem C2_counterexample :
    balance42Resp.status_code = 200 ∧
    balance42Resp.text = "\x7b\"data\":\x7b\"balance\":\"42.\"\x7d\x7d" ∧
    strHasSub ("\x7b\"data\":\x7b\"balance\":\"42.\"\x7d\x7d")
      (fullOutput (mint_tokens defaultToAddress defaultAmount
        (ReqOutcome.resp balance42Resp) (ReqOutcome.resp serverErrorResp))) = false := by
  refine ⟨rfl, rfl, ?_⟩
  decide

/-- C2, amended: on that 200 response the output contains the parsed JSON
rendered through Python dict `repr` — the line
`✅ Current balance: \x7b'data': \x7b'balance': '42.'\x7d\x7d` — i.e. the content is
preserved only up to re-rendering (single-quoted), not verbatim. -/
theorem C2_amended_repr_output :
    ("✅ Current balance: \x7b" ++ sqS ++ "data" ++ sqS ++ ": \x7b" ++ sqS ++ "balance" ++ sqS ++
        ": " ++ sqS ++ "42." ++ sqS ++ "\x7d\x7d") ∈
      (mint_tokens defaultToAddress defaultAmount
        (ReqOutcome.resp balance42Resp) (ReqOutcome.resp serverErrorResp)).output := by
  decide

/-! ## C3: failure handling of the token-info request -/

/-- C3, counterexample: when the token-info post returns 500 with body
`server error`, the run prints the status line but NO line containing the
response text — unlike the balance branch, line 53 omits `response.text`,
so the failure handling is not identical. -/
theorem C3_counterexample :
    ("⚠️  Could not get token info: 500") ∈
      (mint_tokens defaultToAddress defaultAmount
        (ReqOutcome.resp balance42Resp) (ReqOutcome.resp serverErrorResp)).output ∧
    ((mint_tokens defaultToAddress defaultAmount
        (ReqOutcome.resp balance42Resp) (ReqOutcome.resp serverErrorResp)).output.all
      (fun l => !(strHasSub ("server error") l))) = true := by
  constructor
  · decide
  · decide

/-- C3, amended: on a non-200 token-info response (reached without an
exception from the balance phase) the run prints exactly one line for the
failure — the status code — and not the response text: the whole trace is
the balance lines, the checking line, the status line and the advisory. -/
theorem C3_amended_tokeninfo_failure (toA amount : String) (r1 r2 : HttpResp)
    (h1 : r1.status_code = 200 → r1.jsonOf.isSome = true) (h2 : r2.status_code ≠ 200) :
    mint_tokens toA amount (ReqOutcome.resp r1) (ReqOutcome.resp r2) =
      ⟨[(requestUrl, balanceQuery toA), (requestUrl, infoQuery)],
       ["🔍 Checking current balance for " ++ toA ++ "..."] ++ balanceLines r1 ++
         ["\n🪙 Checking token info...",
          "⚠️  Could not get token info: " ++ toString r2.status_code] ++ advisoryLines,
       none⟩ := by
  by_cases h : r1.status_code = 200
  · cases hj : r1.jsonOf with
    | none => exact absurd (h1 h) (by simp [hj])
    | some j => simp [mint_tokens, balanceLines, h, hj, h2]
  · simp [mint_tokens, balanceLines, h, h2]

/-- C3, witness: the amended theorem at a concrete 200 balance response and
a concrete 500 token-info response. -/
theorem C3_witness :
    mint_tokens defaultToAddress defaultAmount
        (ReqOutcome.resp balance42Resp) (ReqOutcome.resp serverErrorResp) =
      ⟨[(requestUrl, balanceQuery defaultToAddress), (requestUrl, infoQuery)],
       ["🔍 Checking current balance for " ++ defaultToAddress ++ "..."] ++
         balanceLines balance42Resp ++
         ["\n🪙 Checking token info...",
          "⚠️  Could not get token info: " ++ toString serverErrorResp.status_code] ++
         advisoryLines,
       none⟩ :=
  C3_amended_tokeninfo_failure defaultToAddress defaultAmount balance42Resp serverErrorResp
    (by decide) (by decide)

/-! ## C4: malformed JSON on the success path -/

/-- C4, counterexample: a 200 balance response whose body `not json` fails
to parse makes `response.json()` raise: the run dies with an uncaught
`JSONDecodeError` after one post and one printed line — no warning is
printed and execution does not continue to the token-info query. -/
theorem C4_counterexample :
    mint_tokens defaultToAddress defaultAmount
        (ReqOutcome.resp ⟨200, "not json", none⟩) (ReqOutcome.resp serverErrorResp) =
      ⟨[(requestUrl, balanceQuery defaultToAddress)],
       ["🔍 Checking current balance for " ++ defaultToAddress ++ "..."],
       some PyError.jsonDecodeError⟩ :=
  rfl

/-- C4, amended: a 200 response with an unparseable body raises an uncaught
`JSONDecodeError` instead of being warned about: on the balance request the
run aborts before the token-info post, and on the token-info request the
run aborts before the advisory; in neither case is the advisory printed. -/
theorem C4_amended_uncaught_json_error :
    (∀ (toA amount : String) (r : HttpResp) (net2 : ReqOutcome),
      r.status_code = 200 → r.jsonOf = none →
      mint_tokens toA amount (ReqOutcome.resp r) net2 =
        ⟨[(requestUrl, balanceQuery toA)],
         ["🔍 Checking current balance for " ++ toA ++ "..."],
         some PyError.jsonDecodeError⟩) ∧
    (∀ (toA amount : String) (r1 r2 : HttpResp),
      (r1.status_code = 200 → r1.jsonOf.isSome = true) →
      r2.status_code = 200 → r2.jsonOf = none →
      mint_tokens toA amount (ReqOutcome.resp r1) (ReqOutcome.resp r2) =
        ⟨[(requestUrl, balanceQuery toA), (requestUrl, infoQuery)],
         ["🔍 Checking current balance for " ++ toA ++ "..."] ++ balanceLines r1 ++
           ["\n🪙 Checking token info..."],
         some PyError.jsonDecodeError⟩ ∧
      ¬ advisoryLines <:+
          (mint_tokens toA amount (ReqOutcome.resp r1) (ReqOutcome.resp r2)).output) := by
  constructor
  · intro toA amount r net2 h200 hnone
    simp [mint_tokens, h200, hnone]
  · intro toA amount r1 r2 h1 h200 hnone
    have heq : mint_tokens toA amount (ReqOutcome.resp r1) (ReqOutcome.resp r2) =
        ⟨[(requestUrl, balanceQuery toA), (requestUrl, infoQuery)],
         ["🔍 Checking current balance for " ++ toA ++ "..."] ++ balanceLines r1 ++
           ["\n🪙 Checking token info..."],
         some PyError.jsonDecodeError⟩ := by
      by_cases h : r1.status_code = 200
      · cases hj : r1.jsonOf with
        | none => exact absurd (h1 h) (by simp [hj])
        | some j => simp [mint_tokens, balanceLines, h, hj, h200, hnone]
      · simp [mint_tokens, balanceLines, h, h200, hnone]
    refine ⟨heq, fun hs => ?_⟩
    rw [heq] at hs
    have hle := hs.length_le
    have hb := balanceLines_length_le r1
    simp [advisoryLines] at hle
    omega

/-- C4, witness: both parts of the amended theorem at concrete responses. -/
theorem C4_witness :
    mint_tokens defaultToAddress defaultAmount
        (ReqOutcome.resp ⟨200, "oops", none⟩) (ReqOutcome.resp balance42Resp) =
      ⟨[(requestUrl, balanceQuery defaultToAddress)],
       ["🔍 Checking current balance for " ++ defaultToAddress ++ "..."],
       some PyError.jsonDecodeError⟩ ∧
    mint_tokens defaultToAddress defaultAmount
        (ReqOutcome.resp serverErrorResp) (ReqOutcome.resp ⟨200, "oops", none⟩) =
      ⟨[(requestUrl, balanceQuery defaultToAddress), (requestUrl, infoQuery)],
       ["🔍 Checking current balance for " ++ defaultToAddress ++ "..."] ++
         balanceLines serverErrorResp ++ ["\n🪙 Checking token info..."],
       some PyError.jsonDecodeError⟩ :=
  ⟨C4_amended_uncaught_json_error.1 defaultToAddress defaultAmount ⟨200, "oops", none⟩
      (ReqOutcome.resp balance42Resp) rfl rfl,
   (C4_amended_uncaught_json_error.2 defaultToAddress defaultAmount serverErrorResp
      ⟨200, "oops", none⟩ (by decide) rfl rfl).1⟩

/-! ## C5: the second request body -/

/-- C5, counterexample: the serialized token-info body has no trailing
space before the closing quote, so it differs from the spec's literal
`\x7b"query": "\x7b tokenInfo \x7b name symbol decimals totalSupply \x7d \x7d "\x7d`. -/
theorem C5_counterexample :
    (mint_tokens defaultToAddress defaultAmount
        (ReqOutcome.resp serverErrorResp) (ReqOutcome.resp serverErrorResp)).posts[1]? =
      some (requestUrl, infoQuery) ∧
    dumps infoQuery ≠ infoBodySpecText :=
  ⟨rfl, by decide⟩

/-- C5, amended: whenever a second post is issued it carries the fixed
token-info body, independent of both `destination_address` and `amount`,
and its serialization is
`\x7b"query": "\x7b tokenInfo \x7b name symbol decimals totalSupply \x7d \x7d"\x7d` —
without the trailing space the spec shows. -/
theorem C5_amended_fixed_info_body (toA amount : String) (n1 n2 : ReqOutcome) :
    ((mint_tokens toA amount n1 n2).posts[1]? = none ∨
     (mint_tokens toA amount n1 n2).posts[1]? = some (requestUrl, infoQuery)) ∧
    dumps infoQuery =
      "\x7b\"query\": \"\x7b tokenInfo \x7b name symbol decimals totalSupply \x7d \x7d\"\x7d" := by
  constructor
  · cases n1 with
    | exn m => exact Or.inl rfl
    | resp r1 =>
      by_cases h : r1.status_code = 200
      · cases hj : r1.jsonOf with
        | none => left; simp [mint_tokens, h, hj]
        | some j =>
          right
          cases n2 with
          | exn m2 => simp [mint_tokens, h, hj]
          | resp r2 =>
            by_cases h2 : r2.status_code = 200
            · cases hj2 : r2.jsonOf <;> simp [mint_tokens, h, h2, hj, hj2]
            · simp [mint_tokens, h, h2, hj]
      · right
        cases n2 with
        | exn m2 => simp [mint_tokens, h]
        | resp r2 =>
          by_cases h2 : r2.status_code = 200
          · cases hj2 : r2.jsonOf <;> simp [mint_tokens, h, h2, hj2]
          · simp [mint_tokens, h, h2]
  · decide

/-! ## C6: non-200 balance response -/

/-- C6: when the balance query is answered with HTTP 500 and body
`server error`, the run prints the status code and the literal response
text, and still issues the second (token-info) post — for every address,
amount, parse result and second-request outcome. -/
theorem C6_balance_500_reports_and_continues (toA amount : String) (j : Option PyJson)
    (net2 : ReqOutcome) :
    ("⚠️  Could not check balance: 500") ∈
      (mint_tokens toA amount (ReqOutcome.resp ⟨500, "server error", j⟩) net2).output ∧
    ("Response: server error") ∈
      (mint_tokens toA amount (ReqOutcome.resp ⟨500, "server error", j⟩) net2).output ∧
    (mint_tokens toA amount (ReqOutcome.resp ⟨500, "server error", j⟩) net2).posts =
      [(requestUrl, balanceQuery toA), (requestUrl, infoQuery)] := by
  have e1 : ("⚠️  Could not check balance: " ++ toString (500 : Nat)) =
      ("⚠️  Could not check balance: 500") := by decide
  have e2 : (("Response: " : String) ++ "server error") = ("Response: server error") := by
    decide
  cases net2 with
  | exn m => exact ⟨by simp [mint_tokens, e1], by simp [mint_tokens, e2], rfl⟩
  | resp r2 =>
    by_cases h2 : r2.status_code = 200
    · cases hj2 : r2.jsonOf with
      | none =>
        exact ⟨by simp [mint_tokens, h2, hj2, e1], by simp [mint_tokens, h2, hj2, e2],
          by simp [mint_tokens, h2, hj2]⟩
      | some j2 =>
        exact ⟨by simp [mint_tokens, h2, hj2, e1], by simp [mint_tokens, h2, hj2, e2],
          by simp [mint_tokens, h2, hj2]⟩
    · exact ⟨by simp [mint_tokens, h2, e1], by simp [mint_tokens, h2, e2],
        by simp [mint_tokens, h2]⟩

/-! ## C7: the advisory -/

/-- C7: whenever both requests yield responses and every 200 body parses
(the outcomes the claim enumerates: success or non-200 failure of either
query), the run ends with the fixed six-line minting-unsupported advisory
as a suffix of the printed output. -/
theorem C7_advisory_always_printed (toA amount : String) (r1 r2 : HttpResp)
    (h1 : r1.status_code = 200 → r1.jsonOf.isSome = true)
    (h2 : r2.status_code = 200 → r2.jsonOf.isSome = true) :
    advisoryLines <:+
      (mint_tokens toA amount (ReqOutcome.resp r1) (ReqOutcome.resp r2)).output := by
  by_cases h : r1.status_code = 200
  · cases hj : r1.jsonOf with
    | none => exact absurd (h1 h) (by simp [hj])
    | some j =>
      by_cases g : r2.status_code = 200
      · cases gj : r2.jsonOf with
        | none => exact absurd (h2 g) (by simp [gj])
        | some j2 =>
          simp only [mint_tokens, h, hj, g, gj, if_pos]
          exact List.suffix_append _ _
      · simp only [mint_tokens, h, hj, g, if_pos, if_neg]
        exact List.suffix_append _ _
  · by_cases g : r2.status_code = 200
    · cases gj : r2.jsonOf with
      | none => exact absurd (h2 g) (by simp [gj])
      | some j2 =>
        simp only [mint_tokens, h, g, gj, if_neg, if_pos]
        exact List.suffix_append _ _
    · simp only [mint_tokens, h, g, if_neg]
      exact List.suffix_append _ _

/-- C7, witness: the advisory is a suffix of the output for a concrete run
in which both requests fail with HTTP 500. -/
theorem C7_witness :
    advisoryLines <:+
      (mint_tokens defaultToAddress defaultAmount (ReqOutcome.resp serverErrorResp)
        (ReqOutcome.resp serverErrorResp)).output :=
  C7_advisory_always_printed defaultToAddress defaultAmount serverErrorResp serverErrorResp
    (by decide) (by decide)

/-! ## C8: the amount argument is inert -/

/-- C8, counterexample: the amount string is not interpolated anywhere, but
"the amount value does not appear in any outbound request body" fails as a
universal statement: in the run with `amount = "balance"` the amount value
occurs verbatim inside the first request body. -/
theorem C8_counterexample :
    (mint_tokens defaultToAddress ("balance")
        (ReqOutcome.resp serverErrorResp) (ReqOutcome.resp serverErrorResp)).posts.head? =
      some (requestUrl, balanceQuery defaultToAddress) ∧
    strHasSub ("balance") (dumps (balanceQuery defaultToAddress)) = true :=
  ⟨rfl, by decide⟩

/-- C8, amended: `amount` is inert — two runs differing only in the amount
argument have identical traces (same posts, same output, same exception),
so in particular identical outbound requests; the amount is never
interpolated into a body, though its value may still occur as a substring
of the fixed query text. -/
theorem C8_amended_amount_inert (toA a1 a2 : String) (n1 n2 : ReqOutcome) :
    mint_tokens toA a1 n1 n2 = mint_tokens toA a2 n1 n2 := rfl

/-! ## C9: default command-line arguments -/

/-- C9: invoked with zero positional arguments the script behaves exactly
as if the fixed default address and the default amount `1000.` had been
passed: the banner shows both defaults, the first post queries the default
address, and with well-formed responses the run completes without an
uncaught error. -/
theorem C9_default_arguments (n1 n2 : ReqOutcome) :
    mainRun [] n1 n2 = mainRun [defaultToAddress, defaultAmount] n1 n2 ∧
    ("To Address: " ++ defaultToAddress) ∈ (mainRun [] n1 n2).output ∧
    ("Amount: " ++ defaultAmount) ∈ (mainRun [] n1 n2).output ∧
    (mainRun [] n1 n2).posts.head? = some (requestUrl, balanceQuery defaultToAddress) ∧
    (∀ r1 r2 : HttpResp, (r1.status_code = 200 → r1.jsonOf.isSome = true) →
      (r2.status_code = 200 → r2.jsonOf.isSome = true) →
      (mainRun [] (ReqOutcome.resp r1) (ReqOutcome.resp r2)).exc = none) := by
  refine ⟨rfl, by simp [mainRun, headerLines], by simp [mainRun, headerLines],
    mint_tokens_posts_head defaultToAddress defaultAmount n1 n2, ?_⟩
  intro r1 r2 h1 h2
  show (mint_tokens defaultToAddress defaultAmount
      (ReqOutcome.resp r1) (ReqOutcome.resp r2)).exc = none
  by_cases h : r1.status_code = 200
  · cases hj : r1.jsonOf with
    | none => exact absurd (h1 h) (by simp [hj])
    | some j =>
      by_cases g : r2.status_code = 200
      · cases gj : r2.jsonOf with
        | none => exact absurd (h2 g) (by simp [gj])
        | some j2 => simp [mint_tokens, h, hj, g, gj]
      · simp [mint_tokens, h, hj, g]
  · by_cases g : r2.status_code = 200
    · cases gj : r2.jsonOf with
      | none => exact absurd (h2 g) (by simp [gj])
      | some j2 => simp [mint_tokens, h, g, gj]
    · simp [mint_tokens, h, g]

/-- C9, witness: the theorem at a concrete network, its benign-response
hypotheses discharged at two HTTP 500 responses. -/
theorem C9_witness :
    mainRun [] (ReqOutcome.resp serverErrorResp) (ReqOutcome.resp serverErrorResp) =
      mainRun [defaultToAddress, defaultAmount]
        (ReqOutcome.resp serverErrorResp) (ReqOutcome.resp serverErrorResp) ∧
    (mainRun [] (ReqOutcome.resp serverErrorResp) (ReqOutcome.resp serverErrorResp)).exc =
      none :=
  ⟨(C9_default_arguments (ReqOutcome.resp serverErrorResp)
      (ReqOutcome.resp serverErrorResp)).1,
   (C9_default_arguments (ReqOutcome.resp serverErrorResp)
      (ReqOutcome.resp serverErrorResp)).2.2.2.2 serverErrorResp serverErrorResp
      (by decide) (by decide)⟩

/-! ## C10: transport exception on the first post -/

/-- C10: if the balance `requests.post` raises a transport-level exception,
it propagates out of `mint_tokens` uncaught: the trace holds exactly the
one issued post and the single line printed before it, the exception is
recorded, the token-info request is never issued and the advisory is never
printed. -/
theorem C10_transport_exception_propagates (toA amount m : String) (net2 : ReqOutcome) :
    mint_tokens toA amount (ReqOutcome.exn m) net2 =
      ⟨[(requestUrl, balanceQuery toA)],
       ["🔍 Checking current balance for " ++ toA ++ "..."],
       some (PyError.transportError m)⟩ ∧
    ¬ advisoryLines <:+ (mint_tokens toA amount (ReqOutcome.exn m) net2).output := by
  refine ⟨rfl, fun hs => ?_⟩
  have hle := hs.length_le
  simp [mint_tokens, advisoryLines] at hle
